import Mathlib

/-!
Verification of the SmartPipeX ESP32 sensor simulator
(`esp32_simulator.py`) against its natural-language specification.

The script is a single Python file.  We shallowly embed it:

* Flow values are modelled as rationals (`ℚ`); Python's binary floats
  are idealised as exact decimal/real arithmetic.
* `random.uniform` / `random.random` draws become explicit parameters
  (the `Draws` structure), with their documented ranges captured by
  `Draws.Valid`.
* Python's `round(x, 3)` (documented as round-half-to-even on the
  decimal value) becomes `round3`, built from the banker's rounding
  function `rhe`.
* The HTTP transport becomes a function `HttpRequest → HttpOutcome`
  supplied by the environment; response bodies are modelled by a small
  JSON value type, with `none` standing for a body that is not
  parseable as JSON (in which case `response.json()` raises
  `requests.exceptions.JSONDecodeError`, a `RequestException`, so the
  `except` clause catches it).
* A method call that may return normally, return `False`, or let a
  Python exception escape is modelled by the `SendResult` sum.
-/

/-- Banker's rounding (round half to even) of a rational to an integer,
the semantics of Python's built-in `round`. -/
def rhe (x : ℚ) : ℤ :=
  let n : ℤ := ⌊x⌋
  let f : ℚ := x - n
  if f < 1/2 then n
  else if 1/2 < f then n + 1
  else if Even n then n else n + 1

/-- `round(x, 3)` from the Python source: round to 3 decimal places,
ties to even. -/
def round3 (x : ℚ) : ℚ := (rhe (x * 1000) : ℚ) / 1000

/-- The four random draws one call of `read_sensors` may consume.
`u` is `random.uniform(-0.2, 0.2)`, `p` is `random.random()`,
`leakAmount` is `random.uniform(0.1, 0.8)` (consumed only in the leak
branch), `d` is `random.uniform(0, 0.1)` (consumed only in the normal
branch). -/
structure Draws where
  u : ℚ
  p : ℚ
  leakAmount : ℚ
  d : ℚ
deriving DecidableEq, Repr

/-- The ranges the Python random library guarantees for the draws of
`read_sensors`: `uniform(a, b)` lies in `[a, b]` and `random()` in
`[0, 1)`. -/
def Draws.Valid (dr : Draws) : Prop :=
  -0.2 ≤ dr.u ∧ dr.u ≤ 0.2 ∧ 0 ≤ dr.p ∧ dr.p < 1 ∧
    0.1 ≤ dr.leakAmount ∧ dr.leakAmount ≤ 0.8 ∧ 0 ≤ dr.d ∧ dr.d ≤ 0.1

instance (dr : Draws) : Decidable dr.Valid := by
  unfold Draws.Valid; infer_instance

/-- The dictionary returned by `ESP32Simulator.read_sensors`. -/
structure SensorSample where
  inputFlow : ℚ
  outputFlow : ℚ
  timestamp : String
  deviceId : String
deriving DecidableEq, Repr

/-- The `ESP32Simulator` object state set up by `__init__`.  The
`requests.Session` object is opaque to the script; we model it by an
abstract handle. -/
structure ESP32Simulator where
  device_id : String := "ESP32_SIMULATOR_001"
  api_url : String := "http://localhost:3000/api/ingest"
  base_flow : ℚ := 3
  session : ℕ := 0
deriving DecidableEq, Repr

/-- `ESP32Simulator.read_sensors`, embedded in state-passing style: the
method reads `self` and returns the sample dictionary together with the
(unmodified) object state.  Mirrors the source line by line; the random
draws and the wall-clock reading (`now`) are explicit inputs. -/
def read_sensors (self : ESP32Simulator) (dr : Draws) (now : String) :
    SensorSample × ESP32Simulator :=
  let input_variation := dr.u
  let input_flow := max 0 (self.base_flow + input_variation)
  let leak_probability : ℚ := 0.2
  let output_flow :=
    if dr.p < leak_probability then
      let leak_amount := dr.leakAmount
      max 0 (input_flow - leak_amount)
    else
      max 0 (input_flow - dr.d)
  let input_flow := round3 input_flow
  let output_flow := round3 output_flow
  ({ inputFlow := input_flow
     outputFlow := output_flow
     timestamp := now
     deviceId := self.device_id }, self)

example :
    (read_sensors {} { u := 0, p := 0, leakAmount := 0.5, d := 0 } "t").1.outputFlow
      = 2.5 := by
  norm_num [read_sensors, round3, rhe]

/-- A JSON value, the model of Python objects produced by `json` /
`response.json()` and consumed by `session.post(..., json=...)`. -/
inductive Json where
  | null : Json
  | bool (b : Bool) : Json
  | num (q : ℚ) : Json
  | str (s : String) : Json
  | arr (xs : List Json) : Json
  | obj (fields : List (String × Json)) : Json

/-- The keys of a JSON object (empty for a non-object). -/
def Json.keys : Json → List String
  | .obj fields => fields.map Prod.fst
  | _ => []

/-- Python subscription `j[k]` with a string key: a `KeyError` on a
dict without the key, a `TypeError` on a non-dict. -/
def jget (j : Json) (k : String) : Except String Json :=
  match j with
  | .obj fields =>
    match fields.lookup k with
    | some v => Except.ok v
    | none => Except.error ("KeyError: " ++ k)
  | _ => Except.error "TypeError: value is not subscriptable by a string"

/-- Python truthiness of a JSON value, as used by
`if result[...]["leakDetected"]:`. -/
def truthy : Json → Bool
  | .null => false
  | .bool b => b
  | .num q => q != 0
  | .str s => s != ""
  | .arr xs => !xs.isEmpty
  | .obj fields => !fields.isEmpty

/-- Python attribute access `severity.upper()`: only a string has it;
anything else raises an `AttributeError`. -/
def pyUpper (j : Json) : Except String String :=
  match j with
  | .str s => Except.ok s.toUpper
  | _ => Except.error "AttributeError: value has no attribute upper"

/-- The field accesses `send_data` performs on a parsed 201 response
body (source lines 79–84), in source order:
`result["data"]["processed"]["leakDetected"]`, then — when that value
is truthy — `severity` (whose `.upper()` needs a string) and
`severityScore`, then `result["data"]["totalReadings"]`.  An `error`
is a Python exception (`KeyError` / `TypeError` / `AttributeError`)
that is not a `requests.exceptions.RequestException`, so it escapes
the `try` block of `send_data`. -/
def process201 (result : Json) : Except String Unit := do
  let data ← jget result "data"
  let processed ← jget data "processed"
  let leakDetected ← jget processed "leakDetected"
  if truthy leakDetected then
    let severity ← jget processed "severity"
    let _ ← pyUpper severity
    let _ ← jget processed "severityScore"
    pure ()
  let _ ← jget data "totalReadings"
  pure ()

/-- Whether an `Except` computation succeeded. -/
def exceptOk : Except String Unit → Bool
  | .ok _ => true
  | .error _ => false

/-- The HTTP request `send_data` hands to `session.post`. -/
structure HttpRequest where
  url : String
  method : String
  headers : List (String × String)
  body : Json
  timeout : ℚ

/-- What the transport produces for a request.  `response status text
body` is an HTTP response; `body = none` models a body `response.json()`
cannot parse (the raised `JSONDecodeError` is a
`requests.exceptions.RequestException`).  `transportError` models the
request itself raising a `RequestException` (connection refused,
timeout, DNS failure), carrying the exception text. -/
inductive HttpOutcome where
  | response (status : ℤ) (text : String) (body : Option Json) : HttpOutcome
  | transportError (msg : String) : HttpOutcome

/-- How one call of `send_data` ends: `success` is `return True`;
`failure diag` is `return False` after printing the diagnostic line
`diag`; `raised exc` is a Python exception escaping the method. -/
inductive SendResult where
  | success : SendResult
  | failure (diagnostic : String) : SendResult
  | raised (exc : String) : SendResult
deriving DecidableEq, Repr

/-- The JSON body `session.post(..., json=sensor_data, ...)` sends: the
sample dictionary in its source key order. -/
def sampleToJson (s : SensorSample) : Json :=
  Json.obj
    [("inputFlow", Json.num s.inputFlow),
     ("outputFlow", Json.num s.outputFlow),
     ("timestamp", Json.str s.timestamp),
     ("deviceId", Json.str s.deviceId)]

/-- The request `send_data` builds (source lines 61–72): a POST to
`self.api_url` with the `Content-Type: application/json` header, the
serialized sample as body, and a 10-second timeout. -/
def mkRequest (self : ESP32Simulator) (sensor_data : SensorSample) : HttpRequest :=
  { url := self.api_url
    method := "POST"
    headers := [("Content-Type", "application/json")]
    body := sampleToJson sensor_data
    timeout := 10 }

/-- The diagnostic printed for a non-201 response (source line 87). -/
def httpErrorDiag (status : ℤ) (text : String) : String :=
  "❌ Error: " ++ toString status ++ " - " ++ text

/-- The diagnostic printed for a caught `RequestException`
(source line 91). -/
def networkErrorDiag (msg : String) : String :=
  "❌ Network error: " ++ msg

/-- The exception text we use for a 201 body `response.json()` cannot
parse; the concrete `JSONDecodeError` message is irrelevant to the
claims, only that it flows into the `except` branch. -/
def jsonDecodeMsg : String := "JSONDecodeError: response body is not valid JSON"

/-- `ESP32Simulator.send_data`, with the transport passed in as a
function `net` on requests.  On a 201 response it parses the body and
reads the nested fields (`process201`); an unparseable body raises a
`RequestException`, caught like a transport error, while a missing
field raises a `KeyError`/`TypeError` that escapes the method.  On a
non-201 response it prints the status-and-body diagnostic and returns
`False`; on a transport error it prints the network diagnostic and
returns `False`. -/
def send_data (self : ESP32Simulator) (sensor_data : SensorSample)
    (net : HttpRequest → HttpOutcome) : SendResult :=
  match net (mkRequest self sensor_data) with
  | .transportError msg => .failure (networkErrorDiag msg)
  | .response status text body =>
    if status = 201 then
      match body with
      | none => .failure (networkErrorDiag jsonDecodeMsg)
      | some result =>
        match process201 result with
        | .ok _ => .success
        | .error exc => .raised exc
    else
      .failure (httpErrorDiag status text)

/-- Whether the transport's answer is one `send_data` accepts: a 201
response with a parseable body holding the expected nested fields. -/
def HttpOutcome.accepted : HttpOutcome → Bool
  | .response status _ (some result) => status == 201 && exceptOk (process201 result)
  | _ => false

/-- The environment one iteration of the continuous loop observes: the
random draws and clock reading its `read_sensors` call consumes, and
the transport's behaviour for its `send_data` call. -/
structure LoopInput where
  draws : Draws
  now : String
  net : HttpRequest → HttpOutcome

/-- What one iteration of `run_continuous` did: the sample it generated
and sent, how the send ended, and how long it then slept (`none` when
the send raised, so the loop body was aborted before any sleep). -/
structure IterRecord where
  sample : SensorSample
  result : SendResult
  sleep : Option ℚ

/-- `ESP32Simulator.run_continuous` (source lines 104–117), observed
over a finite prefix `inputs` of the infinite environment: each
iteration reads the sensors, sends, and on failure sleeps 10 seconds
and continues (`continue` skips the interval sleep), on success sleeps
`interval_seconds`; an exception escaping `send_data` is caught by the
outer `except Exception` handler, ending the loop (no sleep).
Exhausting `inputs` models cutting observation of the still-running
loop short. -/
def run_continuous (self : ESP32Simulator) (interval_seconds : ℚ) :
    List LoopInput → List IterRecord
  | [] => []
  | inp :: rest =>
    let sensor_data := (read_sensors self inp.draws inp.now).1
    match send_data self sensor_data inp.net with
    | .raised exc => [⟨sensor_data, .raised exc, none⟩]
    | .failure diag =>
      ⟨sensor_data, .failure diag, some 10⟩ :: run_continuous self interval_seconds rest
    | .success =>
      ⟨sensor_data, .success, some interval_seconds⟩ ::
        run_continuous self interval_seconds rest

/-- What a run of `main` (source lines 124–141) did. `warmupSample` is
the single test reading generated and printed; `warmupResult` how its
send ended; `printedFailureNotice` whether the "Test failed" diagnostic
was printed; `loopTrace` is `some` trace exactly when the program
entered `run_continuous`. -/
structure MainResult where
  warmupSample : SensorSample
  warmupResult : SendResult
  printedFailureNotice : Bool
  loopTrace : Option (List IterRecord)

/-- The `main` entry point: construct a default simulator, perform one
warm-up cycle (generate a sample, print it, send it), and enter
`run_continuous` with `interval_seconds = 3` exactly when that send
returned `True`; when it returned `False`, print the failure diagnostic
and return without entering the loop.  When the warm-up send raises,
the exception propagates out of `main` (no diagnostic, no loop). -/
def mainEntry (warmup : LoopInput) (loopInputs : List LoopInput) : MainResult :=
  let simulator : ESP32Simulator := {}
  let test_data := (read_sensors simulator warmup.draws warmup.now).1
  match send_data simulator test_data warmup.net with
  | .success =>
    { warmupSample := test_data
      warmupResult := .success
      printedFailureNotice := false
      loopTrace := some (run_continuous simulator 3 loopInputs) }
  | .failure diag =>
    { warmupSample := test_data
      warmupResult := .failure diag
      printedFailureNotice := true
      loopTrace := none }
  | .raised exc =>
    { warmupSample := test_data
      warmupResult := .raised exc
      printedFailureNotice := false
      loopTrace := none }

/-! ## Properties of the rounding function -/

theorem rhe_floor_le (x : ℚ) : ⌊x⌋ ≤ rhe x := by
  simp only [rhe]
  split_ifs <;> omega

theorem rhe_le_floor_add_one (x : ℚ) : rhe x ≤ ⌊x⌋ + 1 := by
  simp only [rhe]
  split_ifs <;> omega

theorem rhe_mono {x y : ℚ} (h : x ≤ y) : rhe x ≤ rhe y := by
  rcases lt_or_eq_of_le (Int.floor_mono h) with hf | hf
  · calc rhe x ≤ ⌊x⌋ + 1 := rhe_le_floor_add_one x
      _ ≤ ⌊y⌋ := by omega
      _ ≤ rhe y := rhe_floor_le y
  · simp only [rhe, ← hf]
    split_ifs <;> first | omega | linarith

theorem rhe_intCast (n : ℤ) : rhe (n : ℚ) = n := by
  simp only [rhe, Int.floor_intCast, sub_self]
  norm_num

theorem round3_mono {x y : ℚ} (h : x ≤ y) : round3 x ≤ round3 y := by
  unfold round3
  have h1 := rhe_mono (mul_le_mul_of_nonneg_right h (by norm_num : (0:ℚ) ≤ 1000))
  have h2 : (rhe (x * 1000) : ℚ) ≤ (rhe (y * 1000) : ℚ) := by exact_mod_cast h1
  linarith

theorem round3_nonneg {x : ℚ} (h : 0 ≤ x) : 0 ≤ round3 x := by
  unfold round3
  have h0 : (0:ℤ) ≤ ⌊x * 1000⌋ := Int.floor_nonneg.mpr (mul_nonneg h (by norm_num))
  have h1 : (0:ℚ) ≤ (rhe (x * 1000) : ℚ) := by
    exact_mod_cast le_trans h0 (rhe_floor_le (x * 1000))
  linarith

theorem round3_intDiv (m : ℤ) : round3 ((m : ℚ) / 1000) = (m : ℚ) / 1000 := by
  unfold round3
  rw [div_mul_cancel₀ _ (by norm_num : (1000:ℚ) ≠ 0), rhe_intCast]

/-! ## Shared facts about `read_sensors` -/

/-- Both flows of a generated sample, before rounding, and then after
rounding, satisfy `output ≤ input`: the output is the input minus a
nonnegative amount, clamped at zero, and `round3` is monotone. -/
theorem read_sensors_output_le_input (self : ESP32Simulator) (dr : Draws)
    (now : String) (hl : 0 ≤ dr.leakAmount) (hd : 0 ≤ dr.d) :
    (read_sensors self dr now).1.outputFlow ≤ (read_sensors self dr now).1.inputFlow := by
  simp only [read_sensors]
  apply round3_mono
  split_ifs
  · exact max_le (le_max_left 0 _) (sub_le_self _ hl)
  · exact max_le (le_max_left 0 _) (sub_le_self _ hd)

/-- The two failure diagnostics of `send_data` can never coincide: one
starts `❌ Error: `, the other `❌ Network error: `. -/
theorem httpErrorDiag_ne_networkErrorDiag (status : ℤ) (text msg : String) :
    httpErrorDiag status text ≠ networkErrorDiag msg := by
  unfold httpErrorDiag networkErrorDiag
  intro h
  have hd := congrArg String.data h
  rw [String.data_append, String.data_append, String.data_append,
    String.data_append] at hd
  rw [show "❌ Error: ".data = ['❌', ' ', 'E', 'r', 'r', 'o', 'r', ':', ' '] from rfl] at hd
  rw [show "❌ Network error: ".data
      = ['❌', ' ', 'N', 'e', 't', 'w', 'o', 'r', 'k', ' ', 'e', 'r', 'r', 'o', 'r', ':', ' ']
    from rfl] at hd
  simp at hd

/-! ## Concrete draws used by the witnesses -/

/-- Draws selecting the leak branch (`p = 0.1 < 0.2`), with
`u = 0.1` and `leakAmount = 0.5`. -/
def drLeak : Draws := { u := 0.1, p := 0.1, leakAmount := 0.5, d := 0.05 }

/-- Draws selecting the normal branch (`p = 0.5 ≥ 0.2`), with
`u = -0.15` and `d = 0.02`. -/
def drNormal : Draws := { u := -0.15, p := 0.5, leakAmount := 0.1, d := 0.02 }

/-- A concrete sample used by the transmitter theorems. -/
def sample0 : SensorSample :=
  { inputFlow := 3
    outputFlow := 2.9
    timestamp := "2026-01-01T00:00:00+00:00"
    deviceId := "ESP32_SIMULATOR_001" }

/-! ## The claims -/

/-- Claim C1: for every invocation of the reading generator on draws in
their documented ranges, the sample is computed by the stated algorithm:
`inputFlow = max 0 (baseFlow + u)` with `u ∈ [-0.2, 0.2]`; when
`p < 0.2` (the leak branch, taken with probability 0.2),
`outputFlow = max 0 (inputFlow - leakAmount)` with
`leakAmount ∈ [0.1, 0.8]`; otherwise
`outputFlow = max 0 (inputFlow - d)` with `d ∈ [0, 0.1]`; and only
after both flows are computed are they rounded to 3 decimal places
(the rounding is outermost, applied to expressions in the *unrounded*
input flow). -/
theorem c1_read_sensors_algorithm (self : ESP32Simulator) (dr : Draws)
    (now : String) (hv : dr.Valid) :
    (read_sensors self dr now).1.inputFlow
        = round3 (max 0 (self.base_flow + dr.u)) ∧
    (dr.p < 0.2 →
      (read_sensors self dr now).1.outputFlow
        = round3 (max 0 (max 0 (self.base_flow + dr.u) - dr.leakAmount))) ∧
    (¬ dr.p < 0.2 →
      (read_sensors self dr now).1.outputFlow
        = round3 (max 0 (max 0 (self.base_flow + dr.u) - dr.d))) ∧
    (read_sensors self dr now).1.timestamp = now ∧
    (read_sensors self dr now).1.deviceId = self.device_id := by
  obtain ⟨h1, h2, h3, h4, h5, h6, h7, h8⟩ := hv
  refine ⟨rfl, fun h => ?_, fun h => ?_, rfl, rfl⟩ <;> simp [read_sensors, h]

/-- Witness for C1 at the leak-branch draws `drLeak`:
`inputFlow = round3 3.1 = 3.1` and `outputFlow = round3 2.6 = 2.6`. -/
theorem c1_witness :
    (read_sensors {} drLeak "t").1.inputFlow = 3.1 ∧
    (read_sensors {} drLeak "t").1.outputFlow = 2.6 := by
  have h := c1_read_sensors_algorithm {} drLeak "t"
    (by norm_num [Draws.Valid, drLeak])
  constructor
  · rw [h.1]; norm_num [drLeak, round3, rhe]
  · rw [h.2.1 (by norm_num [drLeak])]; norm_num [drLeak, round3, rhe]

/-- Claim C2 as stated — that for some draws in their documented ranges
the generated sample has `outputFlow > inputFlow` — is false: no such
draws exist.  In both branches the unrounded output is the unrounded
input minus a nonnegative amount, clamped at zero, and `round3` is
monotone. -/
theorem c2_counterexample :
    ¬ ∃ (self : ESP32Simulator) (dr : Draws) (now : String),
        dr.Valid ∧
          (read_sensors self dr now).1.inputFlow
            < (read_sensors self dr now).1.outputFlow := by
  rintro ⟨self, dr, now, ⟨_, _, _, _, h5, _, h7, _⟩, hlt⟩
  exact absurd hlt
    (not_lt.mpr (read_sensors_output_le_input self dr now (by linarith) h7))

/-- Claim C2, amended: for every value of the draws in their documented
ranges, the generated sample satisfies `outputFlow ≤ inputFlow`; the
invariant is in fact always guaranteed. -/
theorem c2_output_le_input (self : ESP32Simulator) (dr : Draws)
    (now : String) (hv : dr.Valid) :
    (read_sensors self dr now).1.outputFlow
      ≤ (read_sensors self dr now).1.inputFlow := by
  obtain ⟨_, _, _, _, h5, _, h7, _⟩ := hv
  exact read_sensors_output_le_input self dr now (by linarith) h7

/-- Witness for the amended C2 at the leak-branch draws `drLeak`. -/
theorem c2_witness :
    (read_sensors {} drLeak "t").1.outputFlow
      ≤ (read_sensors {} drLeak "t").1.inputFlow :=
  c2_output_le_input {} drLeak "t" (by norm_num [Draws.Valid, drLeak])

/-- Claim C4: for every value of the random draws (no range assumption
needed: the `max 0` clamps alone guarantee it), the generated sample
satisfies `inputFlow ≥ 0` and `outputFlow ≥ 0`, and both flows are
rounded to exactly 3 decimal places (each is an integer multiple of
1/1000). -/
theorem c4_sample_wellformed (self : ESP32Simulator) (dr : Draws)
    (now : String) :
    0 ≤ (read_sensors self dr now).1.inputFlow ∧
    0 ≤ (read_sensors self dr now).1.outputFlow ∧
    (∃ m : ℤ, (read_sensors self dr now).1.inputFlow = (m : ℚ) / 1000) ∧
    (∃ n : ℤ, (read_sensors self dr now).1.outputFlow = (n : ℚ) / 1000) := by
  refine ⟨?_, ?_, ?_, ?_⟩
  · simp only [read_sensors]
    exact round3_nonneg (le_max_left _ _)
  · simp only [read_sensors]
    split_ifs <;> exact round3_nonneg (le_max_left _ _)
  · simp only [read_sensors, round3]
    exact ⟨_, rfl⟩
  · simp only [read_sensors, round3]
    exact ⟨_, rfl⟩

/-- Claim C9: `read_sensors` leaves every field of the simulator
(`device_id`, `api_url`, `base_flow`, `session`) unchanged, so a second
call on the post-call state behaves exactly as a call on the original
state, whatever its own draws and clock reading are. -/
theorem c9_read_sensors_frame (self : ESP32Simulator) (dr dr2 : Draws)
    (now now2 : String) :
    (read_sensors self dr now).2.device_id = self.device_id ∧
    (read_sensors self dr now).2.api_url = self.api_url ∧
    (read_sensors self dr now).2.base_flow = self.base_flow ∧
    (read_sensors self dr now).2.session = self.session ∧
    read_sensors (read_sensors self dr now).2 dr2 now2
      = read_sensors self dr2 now2 :=
  ⟨rfl, rfl, rfl, rfl, rfl⟩

/-- Claim C10: with the default base flow 3.0 and `u ∈ [-0.2, 0.2]`,
the clamp `max 0 (baseFlow + u)` never takes effect, and the generated
`inputFlow` lies in `[2.8, 3.2]`. -/
theorem c10_input_flow_range (self : ESP32Simulator) (dr : Draws)
    (now : String) (hb : self.base_flow = 3) (hv : dr.Valid) :
    max 0 (self.base_flow + dr.u) = self.base_flow + dr.u ∧
    2.8 ≤ (read_sensors self dr now).1.inputFlow ∧
    (read_sensors self dr now).1.inputFlow ≤ 3.2 := by
  obtain ⟨h1, h2, _⟩ := hv
  have hclamp : max 0 (self.base_flow + dr.u) = self.base_flow + dr.u :=
    max_eq_right (by rw [hb]; linarith)
  refine ⟨hclamp, ?_, ?_⟩
  · simp only [read_sensors, hclamp]
    calc (2.8:ℚ) = round3 2.8 := by norm_num [round3, rhe]
      _ ≤ round3 (self.base_flow + dr.u) := round3_mono (by rw [hb]; linarith)
  · simp only [read_sensors, hclamp]
    calc round3 (self.base_flow + dr.u) ≤ round3 3.2 :=
          round3_mono (by rw [hb]; linarith)
      _ = 3.2 := by norm_num [round3, rhe]

/-- Witness for C10 at the normal-branch draws `drNormal`
(`u = -0.15`). -/
theorem c10_witness :
    max 0 (({} : ESP32Simulator).base_flow + drNormal.u)
        = ({} : ESP32Simulator).base_flow + drNormal.u ∧
    2.8 ≤ (read_sensors {} drNormal "t").1.inputFlow ∧
    (read_sensors {} drNormal "t").1.inputFlow ≤ 3.2 :=
  c10_input_flow_range {} drNormal "t" rfl (by norm_num [Draws.Valid, drNormal])

/-- Claim C3 concerns malformed response bodies.  The code handles the
two kinds of malformation differently, and the second contradicts the
claim (and the method's own docstring, "Returns True if successful,
False otherwise"): a 201 body that is not parseable as JSON makes
`response.json()` raise a `JSONDecodeError`, which is a
`requests.exceptions.RequestException`, so it is caught and surfaced as
a returned failure; but a 201 body that is valid JSON *lacking* the
expected nested fields (here the empty object, which has no `data` key)
raises a `KeyError` that no `except` clause catches, escaping
`send_data` instead of being surfaced to the caller. -/
theorem c3_missing_fields_raise :
    send_data {} sample0 (fun _ => .response 201 "ok" (some (Json.obj [])))
        = SendResult.raised "KeyError: data" ∧
    send_data {} sample0 (fun _ => .response 201 "not json" none)
        = SendResult.failure (networkErrorDiag jsonDecodeMsg) :=
  ⟨rfl, rfl⟩

/-- Claim C5 as stated — that `send_data` reports success exactly when
the HTTP response status is 201 — is false: here the status is 201 and
the body is unparseable, and `send_data` reports failure, not
success. -/
theorem c5_counterexample :
    send_data {} sample0 (fun _ => .response 201 "not json" none)
      ≠ SendResult.success := by
  decide

/-- Claim C5, amended: for every sample, `send_data` serializes it to a
JSON object whose keys are exactly `inputFlow`, `outputFlow`,
`timestamp`, `deviceId`, issues a POST to the configured URL with the
`Content-Type: application/json` header and a 10-second timeout, and
reports success exactly when the response status is 201 *and* the body
is parseable JSON containing the expected nested fields. -/
theorem c5_request_shape_and_success (self : ESP32Simulator)
    (sensor_data : SensorSample) (net : HttpRequest → HttpOutcome) :
    (mkRequest self sensor_data).method = "POST" ∧
    (mkRequest self sensor_data).url = self.api_url ∧
    (mkRequest self sensor_data).headers
        = [("Content-Type", "application/json")] ∧
    (mkRequest self sensor_data).timeout = 10 ∧
    (mkRequest self sensor_data).body.keys
        = ["inputFlow", "outputFlow", "timestamp", "deviceId"] ∧
    (send_data self sensor_data net = SendResult.success ↔
      (net (mkRequest self sensor_data)).accepted = true) := by
  refine ⟨rfl, rfl, rfl, rfl, rfl, ?_⟩
  cases hnet : net (mkRequest self sensor_data) with
  | transportError msg => simp [send_data, HttpOutcome.accepted, hnet]
  | response status text body =>
    cases body with
    | none =>
      simp only [send_data, HttpOutcome.accepted, hnet]
      split_ifs <;> simp
    | some result =>
      simp only [send_data, HttpOutcome.accepted, hnet]
      split_ifs with h
      · cases hp : process201 result <;> simp [hp, exceptOk, h]
      · simp [exceptOk, h]

/-- Claim C6: a non-201 response makes `send_data` return failure with
the status-plus-body diagnostic; a transport-level
`RequestException` makes it return failure with the
exception-text diagnostic; and the two diagnostics can never be the
same string. -/
theorem c6_failure_kinds (self : ESP32Simulator) (sensor_data : SensorSample)
    (net : HttpRequest → HttpOutcome) (status : ℤ) (text : String)
    (body : Option Json) (msg : String) (hstatus : status ≠ 201) :
    (net (mkRequest self sensor_data) = .response status text body →
      send_data self sensor_data net
        = SendResult.failure (httpErrorDiag status text)) ∧
    (net (mkRequest self sensor_data) = .transportError msg →
      send_data self sensor_data net
        = SendResult.failure (networkErrorDiag msg)) ∧
    httpErrorDiag status text ≠ networkErrorDiag msg := by
  refine ⟨fun h => ?_, fun h => ?_,
    httpErrorDiag_ne_networkErrorDiag status text msg⟩
  · simp [send_data, h, hstatus]
  · simp [send_data, h]

/-- Witness for C6: an HTTP 500 answer yields the status-plus-body
failure, a connection refusal yields the network failure, and their
diagnostics differ. -/
theorem c6_witness :
    send_data {} sample0 (fun _ => .response 500 "Internal Server Error" none)
        = SendResult.failure (httpErrorDiag 500 "Internal Server Error") ∧
    send_data {} sample0 (fun _ => .transportError "Connection refused")
        = SendResult.failure (networkErrorDiag "Connection refused") ∧
    httpErrorDiag 500 "Internal Server Error"
        ≠ networkErrorDiag "Connection refused" := by
  have h1 := c6_failure_kinds {} sample0
    (fun _ => .response 500 "Internal Server Error" none)
    500 "Internal Server Error" none "Connection refused" (by decide)
  have h2 := c6_failure_kinds {} sample0
    (fun _ => .transportError "Connection refused")
    500 "Internal Server Error" none "Connection refused" (by decide)
  exact ⟨h1.1 rfl, h2.2.1 rfl, h1.2.2⟩

/-- Claim C7: in every iteration of the continuous loop, a send that
returns success is followed by a sleep of `interval_seconds`, and a
send that returns failure is followed by a sleep of exactly 10 seconds
(the `continue` skips the interval sleep) — a fixed backoff with no
exponential growth; and as long as no send raises, the loop processes
every observed iteration (it always returns to the Ready state, with
no limit on the number of retries). -/
theorem c7_loop_schedule (self : ESP32Simulator) (interval_seconds : ℚ)
    (inputs : List LoopInput) :
    (∀ rec ∈ run_continuous self interval_seconds inputs,
      (rec.result = SendResult.success → rec.sleep = some interval_seconds) ∧
      (∀ diag, rec.result = SendResult.failure diag → rec.sleep = some 10)) ∧
    ((∀ inp ∈ inputs, ∀ exc,
        send_data self (read_sensors self inp.draws inp.now).1 inp.net
          ≠ SendResult.raised exc) →
      (run_continuous self interval_seconds inputs).length = inputs.length) := by
  induction inputs with
  | nil => simp [run_continuous]
  | cons inp rest ih =>
    simp only [run_continuous]
    cases hs : send_data self (read_sensors self inp.draws inp.now).1 inp.net with
    | raised exc =>
      constructor
      · intro rec hrec
        simp only [List.mem_singleton] at hrec
        subst hrec
        exact ⟨fun h => by simp at h, fun diag h => by simp at h⟩
      · intro hnone
        exact absurd hs (hnone inp (List.mem_cons_self inp rest) exc)
    | failure diag0 =>
      constructor
      · intro rec hrec
        rcases List.mem_cons.mp hrec with h | h
        · subst h
          exact ⟨fun h => by simp at h, fun diag h => rfl⟩
        · exact ih.1 rec h
      · intro hnone
        have hlen := ih.2 fun inp2 h2 exc => hnone inp2 (List.mem_cons_of_mem inp h2) exc
        simp [hlen]
    | success =>
      constructor
      · intro rec hrec
        rcases List.mem_cons.mp hrec with h | h
        · subst h
          exact ⟨fun _ => rfl, fun diag h => by simp at h⟩
        · exact ih.1 rec h
      · intro hnone
        have hlen := ih.2 fun inp2 h2 exc => hnone inp2 (List.mem_cons_of_mem inp h2) exc
        simp [hlen]

/-- Claim C8: `main` performs exactly one warm-up cycle — it generates
one sample from the first draws and sends it — and enters the
continuous loop (with interval 3) if and only if that first send
returned `True`; when it returned `False`, `main` prints the failure
diagnostic and ends without entering the loop.  (When the warm-up send
raises, the exception propagates: no diagnostic, no loop — and the
iff still holds, as the send did not succeed.) -/
theorem c8_main_warmup (warmup : LoopInput) (loopInputs : List LoopInput) :
    (mainEntry warmup loopInputs).warmupSample
        = (read_sensors {} warmup.draws warmup.now).1 ∧
    (mainEntry warmup loopInputs).warmupResult
        = send_data {} (read_sensors {} warmup.draws warmup.now).1 warmup.net ∧
    ((mainEntry warmup loopInputs).loopTrace.isSome ↔
      send_data {} (read_sensors {} warmup.draws warmup.now).1 warmup.net
        = SendResult.success) ∧
    (send_data {} (read_sensors {} warmup.draws warmup.now).1 warmup.net
        = SendResult.success →
      (mainEntry warmup loopInputs).loopTrace
        = some (run_continuous {} 3 loopInputs)) ∧
    (∀ diag,
      send_data {} (read_sensors {} warmup.draws warmup.now).1 warmup.net
          = SendResult.failure diag →
      (mainEntry warmup loopInputs).printedFailureNotice = true ∧
      (mainEntry warmup loopInputs).loopTrace = none) := by
  unfold mainEntry
  cases hs : send_data {} (read_sensors {} warmup.draws warmup.now).1 warmup.net <;>
    simp [hs]
